import Mathlib

/-!
# canvia uploader (`index.js`): a shallow embedding

The program is a Node script: four stage functions, each one `axios.post`
followed by a `.then` and a `.catch` handler, and a top level that validates
`process.argv` and `process.env`, splits the single argument on
`/\s*,\s*/` and starts one promise chain per image path.

Modelling decisions.

* `axios.post`, `uuid()` and `FormData` are external: a `World` fixes, for one
  chain, how every request settles, which random values are drawn and how
  building the multipart form goes.  All stage functions are parametric in it.
* A promise is represented by the effects it performs, in order, together
  with the way it settles (`Promise`).  `.then` and `.catch` are `andThen`
  and `orCatch`; a handler that throws is a handler whose result is rejected.
* `console.log` calls are kept apart by call site (`Line`), with the text of
  the source in `Line.render`.
* `upload` builds its form before it calls `axios.post` and outside its
  `.catch`: a form that cannot be built makes `upload` throw, and a form that
  cannot be written ends the process, so that the promise never settles.
* `console.log` is taken to be total.
-/

namespace Canvia

/-! ## Values, responses, errors -/

/-- JavaScript values that travel through the program: the fields read from a
response payload, environment variables, the token and the artwork id.
Numbers, and values with structure of their own (objects and arrays, `other`),
are only passed on and printed, so they are kept with the text their string
conversion gives. -/
inductive Val where
  | undefined
  | null
  | bool (b : Bool)
  | num (shown : String)
  | str (s : String)
  | other (shown : String)
  deriving DecidableEq, Repr

/-- String conversion as performed by a template literal. -/
def Val.toStr : Val → String
  | .undefined => "undefined"
  | .null => "null"
  | .bool b => if b then "true" else "false"
  | .num shown => shown
  | .str s => s
  | .other shown => shown

/-- A token that is a string with at least one character. -/
def Val.isNonEmptyString : Val → Bool
  | .str s => decide (s ≠ "")
  | _ => false

/-- The `data` of a response.  Reading a property of `null` or `undefined`
throws; reading a property of anything else yields the field or `undefined`. -/
inductive Payload where
  | nullish
  | object (fields : List (String × Val))
  deriving DecidableEq, Repr

structure Response where
  status : Nat
  data : Payload
  deriving DecidableEq, Repr

/-- What a rejected promise carries.  `shown` is the text a template literal
prints for it and `status` is `error.response.status` when `error.response`
is present. -/
structure JSError where
  shown : String
  status : Option Nat
  deriving DecidableEq, Repr

/-- The `TypeError` raised by a property read or a destructuring of a nullish
value.  It has no `response`. -/
def typeError (what : String) : JSError :=
  { shown := "TypeError: " ++ what, status := none }

/-- The error thrown by a property read on a nullish payload. -/
def readError (name : String) : JSError :=
  typeError ("Cannot read properties of undefined (reading " ++ name ++ ")")

/-- Property read `data.name`. -/
def Payload.get (d : Payload) (name : String) : Except JSError Val :=
  match d with
  | .nullish => .error (readError name)
  | .object fields => .ok ((fields.lookup name).getD Val.undefined)

/-! ## Requests -/

def API_URL : String := "https://prod.palacio.life/backend/api/v1"

def ONE_HUNDRED_MEGABYTES : Nat := 100000000

/-- Request bodies built by the four stages. -/
inductive Body where
  | credentials (email password : Val)
  | artwork (imageid title details : String) (mediums subjects : List String)
  | form (image : String) (artwork : Val)
  | playlistAdd (artworks : List Val) (playlist : Val)
  deriving DecidableEq, Repr

/-- One call `axios.post(url, body, config)`. -/
structure Request where
  url : String
  body : Body
  headers : List (String × Val)
  maxContentLength : Option Nat
  maxBodyLength : Option Nat
  deriving DecidableEq, Repr

/-- How a call to `axios.post` settles. -/
inductive Outcome where
  | success (response : Response)
  | failure (error : JSError)
  deriving DecidableEq, Repr

/-- How building the multipart form goes.  `FormData` is library code and not
part of the program; what it does with a value depends on the kind of the
value. -/
inductive FormStep where
  /-- The form is built and its body can be written to the request. -/
  | ready
  /-- One of the calls `form.append(...)` throws. -/
  | throws (error : JSError)
  /-- The form is built, and writing its body to the request raises an
  exception that nothing catches: the process ends. -/
  | unsendable
  deriving DecidableEq, Repr

/-- Everything outside the program that one chain depends on.  `form
imagePath artworkID` says how the form with the stream of the file at
`imagePath` and the field `artworkID` goes. -/
structure World where
  post : Request → Outcome
  uuid : String
  boundary : String
  form : String → Val → FormStep

/-! ## Console output -/

/-- The `console.log` call sites of the program. -/
inductive Line where
  | authenticated
  | authError (error : String)
  | createdArtwork (id : String)
  | duplicateTitle
  | createError (error : String)
  | uploaded (artwork imagePath : String)
  | uploadError (error : String)
  | addedToPlaylist
  | playlistError (error : String)
  | unableToUpload
  | usage
  | setup
  deriving DecidableEq, Repr

/-- The text each call site prints. -/
def Line.render : Line → String
  | .authenticated => "✅  Authenticated"
  | .authError e => "❌  Error: Unknown error authenticating " ++ e
  | .createdArtwork id => "✅  Created Artwork ID: " ++ id
  | .duplicateTitle => "❌  Error: Couldn't create artwork, please provide a unique file name."
  | .createError e => "❌  Error: Unknown error creating artwork ID " ++ e
  | .uploaded artwork imagePath => "✅  Uploaded image: " ++ artwork ++ " " ++ imagePath
  | .uploadError e => "❌  Error: Unknown error uploading photo " ++ e
  | .addedToPlaylist => "✅  Added to playlist"
  | .playlistError e => "❌  Error: Unknown error adding to playlist " ++ e
  | .unableToUpload => "❗ ️Unable to upload image, please see errors above."
  | .usage => "Provide three arguments: node index.js /full/path/to/image.jpg"
  | .setup => "Please create an .env file with USERNAME, PASSWORD, and PLAYLIST. See README.md for more details."

/-- Lines printed with the failure glyph by one of the four stages. -/
def Line.isStageError : Line → Bool
  | .authError _ | .duplicateTitle | .createError _ | .uploadError _ | .playlistError _ => true
  | _ => false

/-- Lines printed with the success glyph. -/
def Line.isSuccess : Line → Bool
  | .authenticated | .createdArtwork _ | .uploaded _ _ | .addedToPlaylist => true
  | _ => false

/-! ## Promises -/

/-- An observable effect of a chain. -/
inductive Event where
  | request (r : Request)
  | log (l : Line)
  deriving DecidableEq, Repr

/-- The fate of a promise.  `never` stands for a promise that does not settle
because the process has ended. -/
inductive Settled (α : Type) where
  | resolved (value : α)
  | rejected (error : JSError)
  | never
  deriving DecidableEq, Repr

/-- A promise together with the effects performed until it settles. -/
structure Promise (α : Type) where
  events : List Event
  settled : Settled α
  deriving DecidableEq, Repr

/-- A handler body that returns `v`. -/
def Promise.return {α : Type} (v : α) : Promise α :=
  { events := [], settled := .resolved v }

/-- A handler body that throws `e`. -/
def Promise.throw {α : Type} (e : JSError) : Promise α :=
  { events := [], settled := .rejected e }

/-- A handler body that first logs and then continues as `k`. -/
def Promise.logThen {α : Type} (l : Line) (k : Promise α) : Promise α :=
  { events := Event.log l :: k.events, settled := k.settled }

/-- The method `p.then(f)`: `f` runs only when `p` is fulfilled; what `f`
throws or returns settles the result; a rejection of `p` passes through. -/
def Promise.andThen {α β : Type} (p : Promise α) (f : α → Promise β) : Promise β :=
  match p.settled with
  | .resolved v => { events := p.events ++ (f v).events, settled := (f v).settled }
  | .rejected e => { events := p.events, settled := .rejected e }
  | .never => { events := p.events, settled := .never }

/-- The method `p.catch(g)`: `g` runs only when `p` is rejected. -/
def Promise.orCatch {α : Type} (p : Promise α) (g : JSError → Promise α) : Promise α :=
  match p.settled with
  | .resolved v => { events := p.events, settled := .resolved v }
  | .rejected e => { events := p.events ++ (g e).events, settled := (g e).settled }
  | .never => { events := p.events, settled := .never }

/-- The call `axios.post(...)`: the request is issued and the promise settles
the way the world decides. -/
def axiosPost (w : World) (r : Request) : Promise Response :=
  { events := [Event.request r],
    settled := match w.post r with
      | .success response => .resolved response
      | .failure error => .rejected error }

/-- Lift a property read into a handler body. -/
def Promise.ofExcept {α : Type} : Except JSError α → Promise α
  | .ok v => Promise.return v
  | .error e => Promise.throw e

/-! ## The four stages -/

/-- Modelled from the spec: the `name` field of Node's `path.parse`, which is
library code and not part of the program.  The spec describes it as the base
name of the path, that is its last component, with the extension stripped.  A
dot that opens the base name does not start an extension. -/
def pathParseName (imagePath : String) : String :=
  let base := ((imagePath.data.reverse).takeWhile (fun c => c != '/')).reverse
  match base with
  | [] => ""
  | c :: cs =>
    if cs.contains '.' then
      String.mk (c :: ((cs.reverse.dropWhile (fun d => d != '.')).reverse).dropLast)
    else String.mk base

/-- What `createArtworkID` and `upload` resolve to: `undefined`, or the object
with the two fields `token` and `artworkID`. -/
inductive Handoff where
  | absent
  | pair (token artworkID : Val)
  deriving DecidableEq, Repr

/-- The parameter pattern `({token, artworkID})`: it throws on `undefined`. -/
def Handoff.destructure : Handoff → Except JSError (Val × Val)
  | .absent => .error (typeError "Cannot destructure property token of undefined")
  | .pair token artworkID => .ok (token, artworkID)

def authenticateRequest (username password : Val) : Request :=
  { url := API_URL ++ "/authenticate",
    body := .credentials username password,
    headers := [],
    maxContentLength := none,
    maxBodyLength := none }

/-- Uses username and password to authenticate against the API to get a token. -/
def authenticate (w : World) (username password : Val) : Promise Val :=
  ((axiosPost w (authenticateRequest username password)).andThen
    (fun response =>
      Promise.logThen .authenticated (Promise.ofExcept (response.data.get "token")))).orCatch
    (fun error =>
      Promise.logThen (.authError error.shown) (Promise.return Val.undefined))

def createArtworkRequest (w : World) (token : Val) (imagePath : String) : Request :=
  { url := API_URL ++ "/artworks",
    body := .artwork w.uuid (pathParseName imagePath) "" [] [],
    headers := [("x-access-token", token)],
    maxContentLength := none,
    maxBodyLength := none }

/-- Takes a token and an image path and resolves to the artwork id the image
is to be stored under. -/
def createArtworkID (w : World) (token : Val) (imagePath : String) : Promise Handoff :=
  ((axiosPost w (createArtworkRequest w token imagePath)).andThen
    (fun response =>
      match response.data.get "id" with
      | .error e => Promise.throw e
      | .ok id =>
        Promise.logThen (.createdArtwork id.toStr) (Promise.return (Handoff.pair token id)))).orCatch
    (fun error =>
      if error.status = some 409 then
        Promise.logThen .duplicateTitle (Promise.return Handoff.absent)
      else
        Promise.logThen (.createError error.shown) (Promise.return Handoff.absent))

def uploadRequest (w : World) (username token artworkID : Val) (imagePath : String) : Request :=
  { url := API_URL ++ "/uploads/upload_artwork_image",
    body := .form imagePath artworkID,
    headers := [("x-access-token", token), ("x-user-id", username),
      ("content-type", Val.str ("multipart/form-data; boundary=" ++ w.boundary))],
    maxContentLength := some ONE_HUNDRED_MEGABYTES,
    maxBodyLength := some ONE_HUNDRED_MEGABYTES }

/-- Uploads the image at `imagePath` for the artwork `artworkID`.  The form is
built first, by `new FormData()` and the two calls of `form.append`, before
`axios.post` is called and outside the `.catch`: when that throws, `upload`
throws and no request is issued; when the form cannot be written, the request
is issued and the process ends. -/
def upload (w : World) (username token artworkID : Val) (imagePath : String) : Promise Handoff :=
  match w.form imagePath artworkID with
  | .throws e => Promise.throw e
  | .unsendable =>
    { events := [Event.request (uploadRequest w username token artworkID imagePath)],
      settled := .never }
  | .ready =>
    ((axiosPost w (uploadRequest w username token artworkID imagePath)).andThen
      (fun response =>
        match response.data.get "artwork" with
        | .error e => Promise.throw e
        | .ok artwork =>
          Promise.logThen (.uploaded artwork.toStr imagePath)
            (Promise.return (Handoff.pair token artworkID)))).orCatch
      (fun error =>
        Promise.logThen (.uploadError error.shown) (Promise.return Handoff.absent))

def addToPlaylistRequest (username token artworkID playlistID : Val) : Request :=
  { url := API_URL ++ "/playlists/add_artwork",
    body := .playlistAdd [artworkID] playlistID,
    headers := [("x-access-token", token), ("x-user-id", username)],
    maxContentLength := none,
    maxBodyLength := none }

/-- Adds the artwork to the playlist. -/
def addToPlaylist (w : World) (username token artworkID playlistID : Val) : Promise Val :=
  ((axiosPost w (addToPlaylistRequest username token artworkID playlistID)).andThen
    (fun _ => Promise.logThen .addedToPlaylist (Promise.return Val.undefined))).orCatch
    (fun error =>
      Promise.logThen (.playlistError error.shown) (Promise.return Val.undefined))

/-! ## Top level -/

/-- The three variables of `process.env` the program reads. -/
structure Env where
  USERNAME : Option String
  PASSWORD : Option String
  PLAYLIST : Option String
  deriving DecidableEq, Repr

/-- Reading `process.env.X`. -/
def Env.read : Option String → Val
  | none => Val.undefined
  | some s => Val.str s

/-- The test `!process.env.X`: the variable is unset or the empty string. -/
def Env.missing (v : Option String) : Bool :=
  match v with
  | none => true
  | some s => decide (s = "")

/-- The promise chain started for one image path. -/
def chain (w : World) (env : Env) (imagePath : String) : Promise Val :=
  ((((authenticate w (Env.read env.USERNAME) (Env.read env.PASSWORD)).andThen
        (fun token => createArtworkID w token imagePath)).andThen
      (fun handoff =>
        match handoff.destructure with
        | .error e => Promise.throw e
        | .ok (token, artworkID) =>
          upload w (Env.read env.USERNAME) token artworkID imagePath)).andThen
    (fun handoff =>
      match handoff.destructure with
      | .error e => Promise.throw e
      | .ok (token, artworkID) =>
        addToPlaylist w (Env.read env.USERNAME) token artworkID (Env.read env.PLAYLIST))).orCatch
    (fun _ => Promise.logThen .unableToUpload (Promise.return Val.undefined))

/-- The characters matched by `\s` in a JavaScript regular expression. -/
def isSpace (c : Char) : Bool :=
  let n := c.toNat
  n == 0x09 || n == 0x0A || n == 0x0B || n == 0x0C || n == 0x0D || n == 0x20 ||
  n == 0xA0 || n == 0x1680 || (0x2000 ≤ n && n ≤ 0x200A) || n == 0x2028 ||
  n == 0x2029 || n == 0x202F || n == 0x205F || n == 0x3000 || n == 0xFEFF

/-- The pattern `\s*` followed by `k`: greedy, backtracking to a shorter run
of spaces when `k` fails after a longer one. -/
def matchSpaces (k : List Char → Option (List Char)) : List Char → Option (List Char)
  | [] => k []
  | c :: cs =>
    if isSpace c then
      match matchSpaces k cs with
      | some r => some r
      | none => k (c :: cs)
    else k (c :: cs)

/-- The pattern `,` followed by `k`. -/
def matchComma (k : List Char → Option (List Char)) : List Char → Option (List Char)
  | [] => none
  | c :: cs => if c = ',' then k cs else none

/-- A match of `/\s*,\s*/` anchored at the start of the input; the result is
the input left after the match. -/
def matchSeparator (s : List Char) : Option (List Char) :=
  matchSpaces (matchComma (matchSpaces some)) s

/-- The loop of the split algorithm.  `pending` holds, reversed, the
characters between the end of the last match (`p`) and the current position
(`q`); `rest` is the input from `q` on. -/
def splitLoop : Nat → List Char → List Char → List (List Char)
  | 0, pending, rest => [pending.reverse ++ rest]
  | _ + 1, pending, [] => [pending.reverse]
  | fuel + 1, pending, c :: cs =>
    match matchSeparator (c :: cs) with
    | none => splitLoop fuel (c :: pending) cs
    | some r =>
      if r.length = (c :: cs).length ∧ pending = [] then splitLoop fuel (c :: pending) cs
      else pending.reverse :: splitLoop fuel [] r

/-- The call `s.split(/\s*,\s*/)`. -/
def split (s : String) : List String :=
  if s.data = [] then
    (if (matchSeparator []).isSome then [] else [""])
  else (splitLoop (s.length + 1) [] s.data).map String.mk

/-- What a run of the script does: the lines printed by the top level, the
code passed to `process.exit` if validation ends the process, and the chains
started, one per element of the split argument, each as it goes when no other
chain ends the process. -/
structure Run where
  stdout : List Line
  exitCode : Option Nat
  chains : List (Promise Val)

/-- The top level of the script.  `worlds i` is the world of the chain with
index `i`. -/
def main (argv : List String) (env : Env) (worlds : Nat → World) : Run :=
  if argv.length ≠ 3 then
    { stdout := [Line.usage], exitCode := some 1, chains := [] }
  else if Env.missing env.USERNAME || Env.missing env.PASSWORD || Env.missing env.PLAYLIST then
    { stdout := [Line.setup], exitCode := some 1, chains := [] }
  else
    let imagePaths := argv.getD 2 ""
    { stdout := [],
      exitCode := none,
      chains := (split imagePaths).mapIdx (fun i imagePath => chain (worlds i) env imagePath) }

/-! ## Observations used in the statements -/

/-- The requests among a list of events, in order. -/
def requestsOf : List Event → List Request
  | [] => []
  | Event.request r :: es => r :: requestsOf es
  | Event.log _ :: es => requestsOf es

/-- The lines among a list of events, in order. -/
def linesOf : List Event → List Line
  | [] => []
  | Event.request _ :: es => linesOf es
  | Event.log l :: es => l :: linesOf es

/-- All requests issued by a run. -/
def Run.requests (r : Run) : List Request :=
  (r.chains.map (fun c => requestsOf c.events)).flatten

/-- The argument built from a list of paths: consecutive paths are joined by
a comma with the given padding on its left and right; where the list of
paddings is exhausted the comma is not padded. -/
def joinPadded : List String → List (String × String) → String
  | [], _ => ""
  | [p], _ => p
  | p :: q :: ps, [] => p ++ "," ++ joinPadded (q :: ps) []
  | p :: q :: ps, (l, r) :: pads => p ++ l ++ "," ++ r ++ joinPadded (q :: ps) pads

/-- The string consists of `\s` characters only. -/
def isBlank (s : String) : Bool := s.data.all isSpace

/-- The path has no comma and neither starts nor ends with a `\s` character. -/
def isPlainPath (p : String) : Bool :=
  !p.data.contains ',' &&
  (match p.data.head? with | some c => !isSpace c | none => true) &&
  (match p.data.getLast? with | some c => !isSpace c | none => true)

/-- A separator of the argument with the path that follows it: the padding
on the left and on the right of the comma, and the path. -/
structure Segment where
  left : List Char
  right : List Char
  path : List Char

/-- The characters of a list of segments. -/
def joinSegments : List Segment → List Char
  | [] => []
  | g :: gs => g.left ++ ',' :: (g.right ++ (g.path ++ joinSegments gs))

/-- No comma, and no `\s` character at the end. -/
def EndsPlain (p : List Char) : Prop :=
  ',' ∉ p ∧ ∀ c, p.getLast? = some c → isSpace c = false

/-- No `\s` character at the start. -/
def StartsPlain (p : List Char) : Prop :=
  ∀ c, p.head? = some c → isSpace c = false

/-- Blank padding around the comma and a plain path. -/
def Segment.Plain (g : Segment) : Prop :=
  (∀ c ∈ g.left, isSpace c = true) ∧ (∀ c ∈ g.right, isSpace c = true) ∧
    EndsPlain g.path ∧ StartsPlain g.path

/-- Modelled from the spec: the size ceiling of the HTTP transport, which is
library code and not part of the program.  The spec calls it a maximum
request/body size: a request whose body is longer than the maximum body length
it was configured with fails, and any other request is sent.  `bodyLength`
gives the length in bytes of the body of a request, which for the multipart
form is the file together with the artwork field and the framing, and `server`
says how the server answers a request that is sent. -/
def enforceCeiling (bodyLength : Request → Nat) (server : Request → Outcome) (r : Request) :
    Outcome :=
  match r.maxBodyLength with
  | some limit =>
    if bodyLength r > limit then
      .failure { shown := "Error: Request body larger than maxBodyLength limit", status := none }
    else server r
  | none => server r

/-- The error lines a stage has logged. -/
def Promise.errorLines {α : Type} (p : Promise α) : List Line :=
  (linesOf p.events).filter Line.isStageError

/-- The promise is fulfilled: it is neither a rejection nor left unsettled. -/
def Promise.fulfilled {α : Type} (p : Promise α) : Bool :=
  match p.settled with
  | .resolved _ => true
  | .rejected _ => false
  | .never => false

def Request.isRegister (r : Request) : Bool := r.url == API_URL ++ "/artworks"

def Request.isUpload (r : Request) : Bool := r.url == API_URL ++ "/uploads/upload_artwork_image"

def Request.isPlaylist (r : Request) : Bool := r.url == API_URL ++ "/playlists/add_artwork"

/-! ## Sample environments and worlds -/

/-- The form of the sample worlds.  It follows what the `form-data` library is
seen to do with the artwork field: a string or a number is accepted; an object
or an array makes `form.append` throw; a boolean is accepted by `form.append`
and cannot be written to the request.  The samples pass no other value. -/
def sampleForm (_imagePath : String) (artworkID : Val) : FormStep :=
  match artworkID with
  | .other _ => .throws (typeError "source.on is not a function")
  | .bool _ => .unsendable
  | _ => .ready

def sampleEnv : Env :=
  { USERNAME := some "me@example.org", PASSWORD := some "secret", PLAYLIST := some "playlist-7" }

/-- Every request is answered 401. -/
def unauthorizedWorld : World :=
  { post := fun _ => Outcome.failure ⟨"AxiosError: Request failed with status code 401", some 401⟩,
    uuid := "6f1c", boundary := "x", form := sampleForm }

/-- Every request is answered 200 with a payload holding all the fields the
stages read. -/
def acceptingWorld : World :=
  { post := fun _ => Outcome.success ⟨200, Payload.object
      [("token", Val.str "tok-1"), ("id", Val.str "art-9"), ("artwork", Val.str "art-9")]⟩,
    uuid := "6f1c", boundary := "x", form := sampleForm }

/-- The authentication endpoint answers 200 with an empty string in the token
field. -/
def emptyTokenWorld : World :=
  { post := fun _ => Outcome.success ⟨200, Payload.object [("token", Val.str "")]⟩,
    uuid := "6f1c", boundary := "x", form := sampleForm }

/-- The title is already taken: the request to `/artworks` is answered 409
and every other request is answered like in `acceptingWorld`. -/
def conflictWorld : World :=
  { post := fun r =>
      if r.isRegister then
        Outcome.failure ⟨"AxiosError: Request failed with status code 409", some 409⟩
      else acceptingWorld.post r,
    uuid := "6f1c", boundary := "x", form := sampleForm }

/-- The transport enforces the ceiling, the request body has `fileSize +
framing` bytes, of which `fileSize` are the file, and the server accepts every
request that reaches it. -/
def sizedWorld (fileSize framing : Nat) : World :=
  { post := enforceCeiling (fun _ => fileSize + framing) acceptingWorld.post,
    uuid := "6f1c", boundary := "x", form := sampleForm }

/-- The request to `/artworks` is answered 200 with `id` in the id field and
every other request is answered like in `acceptingWorld`. -/
def idWorld (id : Val) : World :=
  { post := fun r =>
      if r.isRegister then Outcome.success ⟨200, Payload.object [("id", id)]⟩
      else acceptingWorld.post r,
    uuid := "6f1c", boundary := "x", form := sampleForm }


/-! ## The promise combinators -/

theorem andThen_of_resolved {α β : Type} (p : Promise α) (f : α → Promise β) (v : α)
    (h : p.settled = .resolved v) :
    p.andThen f = { events := p.events ++ (f v).events, settled := (f v).settled } := by
  simp [Promise.andThen, h]

theorem andThen_of_rejected {α β : Type} (p : Promise α) (f : α → Promise β) (e : JSError)
    (h : p.settled = .rejected e) :
    p.andThen f = { events := p.events, settled := .rejected e } := by
  simp [Promise.andThen, h]

theorem orCatch_of_resolved {α : Type} (p : Promise α) (g : JSError → Promise α) (v : α)
    (h : p.settled = .resolved v) :
    p.orCatch g = { events := p.events, settled := .resolved v } := by
  simp [Promise.orCatch, h]

theorem orCatch_of_rejected {α : Type} (p : Promise α) (g : JSError → Promise α) (e : JSError)
    (h : p.settled = .rejected e) :
    p.orCatch g = { events := p.events ++ (g e).events, settled := (g e).settled } := by
  simp [Promise.orCatch, h]

/-! ## The stages, outcome by outcome -/

theorem authenticate_of_failure (w : World) (username password : Val) (e : JSError)
    (h : w.post (authenticateRequest username password) = .failure e) :
    authenticate w username password =
      { events := [Event.request (authenticateRequest username password),
          Event.log (Line.authError e.shown)],
        settled := .resolved Val.undefined } := by
  simp [authenticate, axiosPost, Promise.andThen, Promise.orCatch, Promise.logThen,
    Promise.return, h]

theorem authenticate_of_nullish (w : World) (username password : Val) (st : Nat)
    (h : w.post (authenticateRequest username password) = .success ⟨st, .nullish⟩) :
    authenticate w username password =
      { events := [Event.request (authenticateRequest username password),
          Event.log Line.authenticated, Event.log (Line.authError (readError "token").shown)],
        settled := .resolved Val.undefined } := by
  simp [authenticate, axiosPost, Promise.andThen, Promise.orCatch, Promise.logThen,
    Promise.return, Promise.throw, Promise.ofExcept, Payload.get, h]

theorem authenticate_of_object (w : World) (username password : Val) (st : Nat)
    (fields : List (String × Val))
    (h : w.post (authenticateRequest username password) = .success ⟨st, .object fields⟩) :
    authenticate w username password =
      { events := [Event.request (authenticateRequest username password),
          Event.log Line.authenticated],
        settled := .resolved ((fields.lookup "token").getD Val.undefined) } := by
  simp [authenticate, axiosPost, Promise.andThen, Promise.orCatch, Promise.logThen,
    Promise.return, Promise.ofExcept, Payload.get, h]

theorem createArtworkID_of_failure (w : World) (token : Val) (imagePath : String) (e : JSError)
    (h : w.post (createArtworkRequest w token imagePath) = .failure e) :
    createArtworkID w token imagePath =
      { events := [Event.request (createArtworkRequest w token imagePath),
          Event.log (if e.status = some 409 then Line.duplicateTitle else Line.createError e.shown)],
        settled := .resolved Handoff.absent } := by
  by_cases hs : e.status = some 409 <;>
    simp [createArtworkID, axiosPost, Promise.andThen, Promise.orCatch, Promise.logThen,
      Promise.return, h, hs]

theorem createArtworkID_of_nullish (w : World) (token : Val) (imagePath : String) (st : Nat)
    (h : w.post (createArtworkRequest w token imagePath) = .success ⟨st, .nullish⟩) :
    createArtworkID w token imagePath =
      { events := [Event.request (createArtworkRequest w token imagePath),
          Event.log (Line.createError (readError "id").shown)],
        settled := .resolved Handoff.absent } := by
  simp [createArtworkID, axiosPost, Promise.andThen, Promise.orCatch, Promise.logThen,
    Promise.return, Promise.throw, Payload.get, h, readError, typeError]

theorem createArtworkID_of_object (w : World) (token : Val) (imagePath : String) (st : Nat)
    (fields : List (String × Val))
    (h : w.post (createArtworkRequest w token imagePath) = .success ⟨st, .object fields⟩) :
    createArtworkID w token imagePath =
      { events := [Event.request (createArtworkRequest w token imagePath),
          Event.log (Line.createdArtwork ((fields.lookup "id").getD Val.undefined).toStr)],
        settled := .resolved (Handoff.pair token ((fields.lookup "id").getD Val.undefined)) } := by
  simp [createArtworkID, axiosPost, Promise.andThen, Promise.orCatch, Promise.logThen,
    Promise.return, Payload.get, h]

theorem upload_of_failure (w : World) (username token artworkID : Val) (imagePath : String)
    (e : JSError) (hform : w.form imagePath artworkID = .ready)
    (h : w.post (uploadRequest w username token artworkID imagePath) = .failure e) :
    upload w username token artworkID imagePath =
      { events := [Event.request (uploadRequest w username token artworkID imagePath),
          Event.log (Line.uploadError e.shown)],
        settled := .resolved Handoff.absent } := by
  simp [upload, hform, axiosPost, Promise.andThen, Promise.orCatch, Promise.logThen,
    Promise.return, h]

theorem upload_of_nullish (w : World) (username token artworkID : Val) (imagePath : String)
    (st : Nat) (hform : w.form imagePath artworkID = .ready)
    (h : w.post (uploadRequest w username token artworkID imagePath) = .success ⟨st, .nullish⟩) :
    upload w username token artworkID imagePath =
      { events := [Event.request (uploadRequest w username token artworkID imagePath),
          Event.log (Line.uploadError (readError "artwork").shown)],
        settled := .resolved Handoff.absent } := by
  simp [upload, hform, axiosPost, Promise.andThen, Promise.orCatch, Promise.logThen,
    Promise.return, Promise.throw, Payload.get, h]

theorem upload_of_object (w : World) (username token artworkID : Val) (imagePath : String)
    (st : Nat) (fields : List (String × Val)) (hform : w.form imagePath artworkID = .ready)
    (h : w.post (uploadRequest w username token artworkID imagePath) =
      .success ⟨st, .object fields⟩) :
    upload w username token artworkID imagePath =
      { events := [Event.request (uploadRequest w username token artworkID imagePath),
          Event.log (Line.uploaded ((fields.lookup "artwork").getD Val.undefined).toStr imagePath)],
        settled := .resolved (Handoff.pair token artworkID) } := by
  simp [upload, hform, axiosPost, Promise.andThen, Promise.orCatch, Promise.logThen,
    Promise.return, Payload.get, h]

theorem upload_of_throwing_form (w : World) (username token artworkID : Val)
    (imagePath : String) (e : JSError) (hform : w.form imagePath artworkID = .throws e) :
    upload w username token artworkID imagePath = { events := [], settled := .rejected e } := by
  simp [upload, hform, Promise.throw]

theorem upload_of_unsendable_form (w : World) (username token artworkID : Val)
    (imagePath : String) (hform : w.form imagePath artworkID = .unsendable) :
    upload w username token artworkID imagePath =
      { events := [Event.request (uploadRequest w username token artworkID imagePath)],
        settled := .never } := by
  simp [upload, hform]

theorem addToPlaylist_of_failure (w : World) (username token artworkID playlistID : Val)
    (e : JSError)
    (h : w.post (addToPlaylistRequest username token artworkID playlistID) = .failure e) :
    addToPlaylist w username token artworkID playlistID =
      { events := [Event.request (addToPlaylistRequest username token artworkID playlistID),
          Event.log (Line.playlistError e.shown)],
        settled := .resolved Val.undefined } := by
  simp [addToPlaylist, axiosPost, Promise.andThen, Promise.orCatch, Promise.logThen,
    Promise.return, h]

theorem addToPlaylist_of_success (w : World) (username token artworkID playlistID : Val)
    (r : Response)
    (h : w.post (addToPlaylistRequest username token artworkID playlistID) = .success r) :
    addToPlaylist w username token artworkID playlistID =
      { events := [Event.request (addToPlaylistRequest username token artworkID playlistID),
          Event.log Line.addedToPlaylist],
        settled := .resolved Val.undefined } := by
  simp [addToPlaylist, axiosPost, Promise.andThen, Promise.orCatch, Promise.logThen,
    Promise.return, h]

/-- An outcome is a failure, a success with a nullish payload or a success
with a payload whose properties can be read. -/
theorem outcome_cases (o : Outcome) :
    (∃ e, o = .failure e) ∨ (∃ st, o = .success ⟨st, .nullish⟩) ∨
      (∃ st fields, o = .success ⟨st, .object fields⟩) := by
  rcases o with ⟨st, _ | fields⟩ | e
  · exact Or.inr (Or.inl ⟨st, rfl⟩)
  · exact Or.inr (Or.inr ⟨st, fields, rfl⟩)
  · exact Or.inl ⟨e, rfl⟩

/-! ## Local error containment -/

/-- What holds of containment: each stage, with `upload` given a form that
can be built and written, is fulfilled however its HTTP call settles, and a
failed HTTP call makes it resolve to the absent value with the error line of
that stage as the one error line logged. -/
theorem stage_failures_are_contained (w : World)
    (username password token artworkID playlistID : Val) (imagePath : String)
    (hform : w.form imagePath artworkID = .ready) :
    ((authenticate w username password).fulfilled = true ∧
      (createArtworkID w token imagePath).fulfilled = true ∧
      (upload w username token artworkID imagePath).fulfilled = true ∧
      (addToPlaylist w username token artworkID playlistID).fulfilled = true) ∧
    ((∀ e, w.post (authenticateRequest username password) = .failure e →
        (authenticate w username password).settled = .resolved Val.undefined ∧
        (authenticate w username password).errorLines = [Line.authError e.shown]) ∧
      (∀ e, w.post (createArtworkRequest w token imagePath) = .failure e →
        (createArtworkID w token imagePath).settled = .resolved Handoff.absent ∧
        (createArtworkID w token imagePath).errorLines =
          [if e.status = some 409 then Line.duplicateTitle else Line.createError e.shown]) ∧
      (∀ e, w.post (uploadRequest w username token artworkID imagePath) = .failure e →
        (upload w username token artworkID imagePath).settled = .resolved Handoff.absent ∧
        (upload w username token artworkID imagePath).errorLines = [Line.uploadError e.shown]) ∧
      (∀ e, w.post (addToPlaylistRequest username token artworkID playlistID) = .failure e →
        (addToPlaylist w username token artworkID playlistID).settled = .resolved Val.undefined ∧
        (addToPlaylist w username token artworkID playlistID).errorLines =
          [Line.playlistError e.shown])) := by
  refine ⟨⟨?_, ?_, ?_, ?_⟩, ⟨?_, ?_, ?_, ?_⟩⟩
  · rcases outcome_cases (w.post (authenticateRequest username password)) with
      ⟨e, h⟩ | ⟨st, h⟩ | ⟨st, fields, h⟩
    · simp [authenticate_of_failure w _ _ e h, Promise.fulfilled]
    · simp [authenticate_of_nullish w _ _ st h, Promise.fulfilled]
    · simp [authenticate_of_object w _ _ st fields h, Promise.fulfilled]
  · rcases outcome_cases (w.post (createArtworkRequest w token imagePath)) with
      ⟨e, h⟩ | ⟨st, h⟩ | ⟨st, fields, h⟩
    · simp [createArtworkID_of_failure w _ _ e h, Promise.fulfilled]
    · simp [createArtworkID_of_nullish w _ _ st h, Promise.fulfilled]
    · simp [createArtworkID_of_object w _ _ st fields h, Promise.fulfilled]
  · rcases outcome_cases (w.post (uploadRequest w username token artworkID imagePath)) with
      ⟨e, h⟩ | ⟨st, h⟩ | ⟨st, fields, h⟩
    · simp [upload_of_failure w _ _ _ _ e hform h, Promise.fulfilled]
    · simp [upload_of_nullish w _ _ _ _ st hform h, Promise.fulfilled]
    · simp [upload_of_object w _ _ _ _ st fields hform h, Promise.fulfilled]
  · rcases hp : w.post (addToPlaylistRequest username token artworkID playlistID) with r | e
    · simp [addToPlaylist_of_success w _ _ _ _ r hp, Promise.fulfilled]
    · simp [addToPlaylist_of_failure w _ _ _ _ e hp, Promise.fulfilled]
  · intro e h
    simp [authenticate_of_failure w _ _ e h, Promise.errorLines, linesOf, Line.isStageError]
  · intro e h
    by_cases hs : e.status = some 409 <;>
      simp [createArtworkID_of_failure w _ _ e h, Promise.errorLines, linesOf,
        Line.isStageError, hs]
  · intro e h
    simp [upload_of_failure w _ _ _ _ e hform h, Promise.errorLines, linesOf,
      Line.isStageError]
  · intro e h
    simp [addToPlaylist_of_failure w _ _ _ _ e h, Promise.errorLines, linesOf, Line.isStageError]

/-- C10, at the failing inputs.  The request to `/artworks` is answered 200
with an object in the id field: `createArtworkID` hands that object on,
`upload` throws while it builds the form, before any request and outside its
`.catch`, so it is not fulfilled and logs no error line, and the chain logs
the outer handler's line with no stage error above it.  With `true` in the id
field `upload` issues its request and never settles, because the process ends
while the body is written, and so does the chain. -/
theorem upload_escapes_its_catch :
    ((createArtworkID (idWorld (Val.other "[object Object]")) (Val.str "tok-1")
        "/tmp/a.jpg").settled =
        .resolved (Handoff.pair (Val.str "tok-1") (Val.other "[object Object]")) ∧
      upload (idWorld (Val.other "[object Object]")) (Val.str "me@example.org")
          (Val.str "tok-1") (Val.other "[object Object]") "/tmp/a.jpg" =
        { events := [], settled := .rejected (typeError "source.on is not a function") } ∧
      (upload (idWorld (Val.other "[object Object]")) (Val.str "me@example.org")
        (Val.str "tok-1") (Val.other "[object Object]") "/tmp/a.jpg").fulfilled = false ∧
      linesOf (chain (idWorld (Val.other "[object Object]")) sampleEnv "/tmp/a.jpg").events =
        [Line.authenticated, Line.createdArtwork "[object Object]", Line.unableToUpload] ∧
      (chain (idWorld (Val.other "[object Object]")) sampleEnv "/tmp/a.jpg").errorLines = []) ∧
    ((createArtworkID (idWorld (Val.bool true)) (Val.str "tok-1") "/tmp/a.jpg").settled =
        .resolved (Handoff.pair (Val.str "tok-1") (Val.bool true)) ∧
      (upload (idWorld (Val.bool true)) (Val.str "me@example.org") (Val.str "tok-1")
        (Val.bool true) "/tmp/a.jpg").settled = .never ∧
      (upload (idWorld (Val.bool true)) (Val.str "me@example.org") (Val.str "tok-1")
        (Val.bool true) "/tmp/a.jpg").fulfilled = false ∧
      (chain (idWorld (Val.bool true)) sampleEnv "/tmp/a.jpg").settled = .never ∧
      linesOf (chain (idWorld (Val.bool true)) sampleEnv "/tmp/a.jpg").events =
        [Line.authenticated, Line.createdArtwork "true"]) := by
  decide

/-! ## Failure classification of the registrar -/

/-- C3: when the call to `/artworks` fails, `createArtworkID` resolves to the
absent value; with an error whose response status is 409 the only line it
logs is the unique-file-name diagnostic, and with any other error (another
status, or no response at all) the only line it logs is the unknown-error
diagnostic. -/
theorem createArtworkID_classifies_failure (w : World) (token : Val) (imagePath : String)
    (e : JSError) (h : w.post (createArtworkRequest w token imagePath) = .failure e) :
    (createArtworkID w token imagePath).settled = .resolved Handoff.absent ∧
    (e.status = some 409 →
      linesOf (createArtworkID w token imagePath).events = [Line.duplicateTitle]) ∧
    (e.status ≠ some 409 →
      linesOf (createArtworkID w token imagePath).events = [Line.createError e.shown]) := by
  rw [createArtworkID_of_failure w token imagePath e h]
  refine ⟨rfl, ?_, ?_⟩
  · intro hs
    simp [linesOf, hs]
  · intro hs
    simp [linesOf, hs]

theorem createArtworkID_classifies_failure_witness :
    conflictWorld.post (createArtworkRequest conflictWorld (Val.str "tok-1") "/tmp/a.jpg") =
        .failure ⟨"AxiosError: Request failed with status code 409", some 409⟩ ∧
      (createArtworkID conflictWorld (Val.str "tok-1") "/tmp/a.jpg").settled =
        .resolved Handoff.absent ∧
      linesOf (createArtworkID conflictWorld (Val.str "tok-1") "/tmp/a.jpg").events =
        [Line.duplicateTitle] :=
  ⟨rfl,
    (createArtworkID_classifies_failure conflictWorld (Val.str "tok-1") "/tmp/a.jpg" _ rfl).1,
    (createArtworkID_classifies_failure conflictWorld (Val.str "tok-1") "/tmp/a.jpg" _ rfl).2.1
      rfl⟩

/-! ## The result of authentication -/

/-- C5, counterexample: the endpoint answers 200 with a token field that holds
the empty string, and `authenticate` resolves to that empty string, which is
not a non-empty token. -/
theorem authenticate_empty_token :
    emptyTokenWorld.post (authenticateRequest (Val.str "me@example.org") (Val.str "secret")) =
        .success ⟨200, .object [("token", Val.str "")]⟩ ∧
      (authenticate emptyTokenWorld (Val.str "me@example.org") (Val.str "secret")).settled =
        .resolved (Val.str "") ∧
      (Val.str "").isNonEmptyString = false := by
  refine ⟨rfl, ?_, by decide⟩
  rw [authenticate_of_object emptyTokenWorld _ _ 200 [("token", Val.str "")] rfl]
  rfl

/-- C5, amended: for every username and password, when the endpoint answers
with a success whose payload has a token field, `authenticate` resolves to
exactly the value of that field, so to a non-empty token precisely when the
field holds one; when the call fails, with an error status or in the
transport, it resolves to `undefined`. -/
theorem authenticate_result (w : World) (username password : Val) :
    (∀ st fields t,
      w.post (authenticateRequest username password) = .success ⟨st, .object fields⟩ →
      fields.lookup "token" = some t →
      (authenticate w username password).settled = .resolved t ∧
      (t.isNonEmptyString = true →
        ∃ s, s ≠ "" ∧ (authenticate w username password).settled = .resolved (Val.str s))) ∧
    (∀ e, w.post (authenticateRequest username password) = .failure e →
      (authenticate w username password).settled = .resolved Val.undefined) := by
  constructor
  · intro st fields t h ht
    rw [authenticate_of_object w _ _ st fields h, ht]
    refine ⟨rfl, ?_⟩
    intro hne
    cases t <;> simp [Val.isNonEmptyString] at hne
    exact ⟨_, hne, rfl⟩
  · intro e h
    rw [authenticate_of_failure w _ _ e h]

theorem authenticate_result_witness :
    (authenticate acceptingWorld (Val.str "me@example.org") (Val.str "secret")).settled =
      .resolved (Val.str "tok-1") :=
  ((authenticate_result acceptingWorld (Val.str "me@example.org") (Val.str "secret")).1
    200 _ (Val.str "tok-1") rfl rfl).1

/-! ## Authentication failure does not stop the chain -/

/-- C1, at the failing input: every request is answered 401.  `authenticate`
resolves to `undefined`, and the chain goes on to issue the request to
`/artworks`, with `undefined` in the token header. -/
theorem chain_registers_after_failed_authentication :
    (authenticate unauthorizedWorld (Env.read sampleEnv.USERNAME)
        (Env.read sampleEnv.PASSWORD)).settled = .resolved Val.undefined ∧
      requestsOf (chain unauthorizedWorld sampleEnv "/tmp/a.jpg").events =
        [authenticateRequest (Val.str "me@example.org") (Val.str "secret"),
          createArtworkRequest unauthorizedWorld Val.undefined "/tmp/a.jpg"] ∧
      (createArtworkRequest unauthorizedWorld Val.undefined "/tmp/a.jpg").isRegister = true ∧
      (createArtworkRequest unauthorizedWorld Val.undefined "/tmp/a.jpg").headers =
        [("x-access-token", Val.undefined)] := by
  decide


theorem takeWhile_append_stop {α : Type} (p : α → Bool) (l r : List α) (a : α)
    (hl : ∀ x ∈ l, p x = true) (ha : p a = false) :
    (l ++ a :: r).takeWhile p = l := by
  induction l with
  | nil => simp [List.takeWhile, ha]
  | cons x xs ih =>
    have hx : p x = true := hl x (List.mem_cons_self _ _)
    simp [List.takeWhile, hx, ih (fun y hy => hl y (List.mem_cons_of_mem _ hy))]

theorem dropWhile_append_stop {α : Type} (p : α → Bool) (l r : List α) (a : α)
    (hl : ∀ x ∈ l, p x = true) (ha : p a = false) :
    (l ++ a :: r).dropWhile p = a :: r := by
  induction l with
  | nil => simp [List.dropWhile, ha]
  | cons x xs ih =>
    have hx : p x = true := hl x (List.mem_cons_self _ _)
    simp [List.dropWhile, hx, ih (fun y hy => hl y (List.mem_cons_of_mem _ hy))]

theorem pathParseName_of_parts (dir name ext : String) (hname : name ≠ "")
    (hn : '/' ∉ name.data) (he : '/' ∉ ext.data) (hd : '.' ∉ ext.data) :
    pathParseName (dir ++ "/" ++ name ++ "." ++ ext) = name := by
  obtain ⟨nd⟩ := name
  obtain ⟨ed⟩ := ext
  obtain ⟨dd⟩ := dir
  cases nd with
  | nil => exact absurd rfl hname
  | cons c cs =>
    simp only [] at hn he hd
    have hrev : (String.mk dd ++ "/" ++ String.mk (c :: cs) ++ "." ++ String.mk ed).data.reverse
        = (ed.reverse ++ '.' :: (c :: cs).reverse) ++ '/' :: dd.reverse := by
      simp [String.data_append]
    have htake : ((ed.reverse ++ '.' :: (c :: cs).reverse) ++ '/' :: dd.reverse).takeWhile
        (fun c => c != '/') = ed.reverse ++ '.' :: (c :: cs).reverse := by
      apply takeWhile_append_stop
      · intro x hx
        have : x ≠ '/' := by
          intro hx'
          subst hx'
          rcases List.mem_append.1 hx with h1 | h1
          · exact he (List.mem_reverse.1 h1)
          · rcases List.mem_cons.1 h1 with h2 | h2
            · exact absurd h2 (by decide)
            · exact hn (List.mem_reverse.1 h2)
        simpa using this
      · simp
    have hdrop : (ed.reverse ++ '.' :: cs.reverse).dropWhile (fun d => d != '.') =
        '.' :: cs.reverse := by
      apply dropWhile_append_stop
      · intro x hx
        have : x ≠ '.' := by
          intro hx'
          subst hx'
          exact hd (by simpa using hx)
        simpa using this
      · simp
    unfold pathParseName
    simp only [hrev, htake]
    have hb : (ed.reverse ++ '.' :: (c :: cs).reverse).reverse = c :: (cs ++ '.' :: ed) := by simp
    simp only [hb]
    have hc : (cs ++ '.' :: ed).contains '.' = true := by simp
    simp [hc, hdrop]

theorem requestsOf_append (xs ys : List Event) :
    requestsOf (xs ++ ys) = requestsOf xs ++ requestsOf ys := by
  induction xs with
  | nil => rfl
  | cons x xs ih => cases x <;> simp [requestsOf, ih]

theorem linesOf_append (xs ys : List Event) :
    linesOf (xs ++ ys) = linesOf xs ++ linesOf ys := by
  induction xs with
  | nil => rfl
  | cons x xs ih => cases x <;> simp [linesOf, ih]

theorem authenticate_resolves (w : World) (username password : Val) :
    ∃ token, (authenticate w username password).settled = .resolved token := by
  rcases outcome_cases (w.post (authenticateRequest username password)) with
    ⟨e, h⟩ | ⟨st, h⟩ | ⟨st, fields, h⟩
  · exact ⟨_, by rw [authenticate_of_failure w _ _ e h]⟩
  · exact ⟨_, by rw [authenticate_of_nullish w _ _ st h]⟩
  · exact ⟨_, by rw [authenticate_of_object w _ _ st fields h]⟩

theorem authenticate_requests (w : World) (username password : Val) :
    requestsOf (authenticate w username password).events =
      [authenticateRequest username password] := by
  rcases outcome_cases (w.post (authenticateRequest username password)) with
    ⟨e, h⟩ | ⟨st, h⟩ | ⟨st, fields, h⟩
  · simp [authenticate_of_failure w _ _ e h, requestsOf]
  · simp [authenticate_of_nullish w _ _ st h, requestsOf]
  · simp [authenticate_of_object w _ _ st fields h, requestsOf]

theorem authenticate_lines (w : World) (username password : Val) :
    (linesOf (authenticate w username password).events).count Line.unableToUpload = 0 ∧
    (linesOf (authenticate w username password).events).count Line.duplicateTitle = 0 := by
  rcases outcome_cases (w.post (authenticateRequest username password)) with
    ⟨e, h⟩ | ⟨st, h⟩ | ⟨st, fields, h⟩
  · simp [authenticate_of_failure w _ _ e h, linesOf]
  · simp [authenticate_of_nullish w _ _ st h, linesOf]
  · simp [authenticate_of_object w _ _ st fields h, linesOf]

theorem createArtworkID_requests (w : World) (token : Val) (imagePath : String) :
    requestsOf (createArtworkID w token imagePath).events =
      [createArtworkRequest w token imagePath] := by
  rcases outcome_cases (w.post (createArtworkRequest w token imagePath)) with
    ⟨e, h⟩ | ⟨st, h⟩ | ⟨st, fields, h⟩
  · simp [createArtworkID_of_failure w _ _ e h, requestsOf]
  · simp [createArtworkID_of_nullish w _ _ st h, requestsOf]
  · simp [createArtworkID_of_object w _ _ st fields h, requestsOf]

theorem createArtworkID_lines (w : World) (token : Val) (imagePath : String) :
    (linesOf (createArtworkID w token imagePath).events).count Line.unableToUpload = 0 := by
  rcases outcome_cases (w.post (createArtworkRequest w token imagePath)) with
    ⟨e, h⟩ | ⟨st, h⟩ | ⟨st, fields, h⟩
  · by_cases hs : e.status = some 409 <;>
      simp [createArtworkID_of_failure w _ _ e h, linesOf, hs]
  · simp [createArtworkID_of_nullish w _ _ st h, linesOf]
  · simp [createArtworkID_of_object w _ _ st fields h, linesOf]

theorem upload_requests (w : World) (username token artworkID : Val) (imagePath : String) :
    ∀ r ∈ requestsOf (upload w username token artworkID imagePath).events,
      r = uploadRequest w username token artworkID imagePath := by
  rcases hf : w.form imagePath artworkID with _ | e | _
  · rcases outcome_cases (w.post (uploadRequest w username token artworkID imagePath)) with
      ⟨e, h⟩ | ⟨st, h⟩ | ⟨st, fields, h⟩
    · simp [upload_of_failure w _ _ _ _ e hf h, requestsOf]
    · simp [upload_of_nullish w _ _ _ _ st hf h, requestsOf]
    · simp [upload_of_object w _ _ _ _ st fields hf h, requestsOf]
  · simp [upload_of_throwing_form w _ _ _ _ e hf, requestsOf]
  · simp [upload_of_unsendable_form w _ _ _ _ hf, requestsOf]

theorem upload_lines (w : World) (username token artworkID : Val) (imagePath : String) :
    (linesOf (upload w username token artworkID imagePath).events).count Line.unableToUpload = 0 := by
  rcases hf : w.form imagePath artworkID with _ | e | _
  · rcases outcome_cases (w.post (uploadRequest w username token artworkID imagePath)) with
      ⟨e, h⟩ | ⟨st, h⟩ | ⟨st, fields, h⟩
    · simp [upload_of_failure w _ _ _ _ e hf h, linesOf]
    · simp [upload_of_nullish w _ _ _ _ st hf h, linesOf]
    · simp [upload_of_object w _ _ _ _ st fields hf h, linesOf]
  · simp [upload_of_throwing_form w _ _ _ _ e hf, linesOf]
  · simp [upload_of_unsendable_form w _ _ _ _ hf, linesOf]

/-- The chain when the registrar hands on nothing. -/
theorem chain_of_absent_registration (w : World) (env : Env) (imagePath : String) (token : Val)
    (hauth : (authenticate w (Env.read env.USERNAME) (Env.read env.PASSWORD)).settled =
      .resolved token)
    (hreg : (createArtworkID w token imagePath).settled = .resolved Handoff.absent) :
    chain w env imagePath =
      { events := (authenticate w (Env.read env.USERNAME) (Env.read env.PASSWORD)).events ++
          (createArtworkID w token imagePath).events ++ [Event.log Line.unableToUpload],
        settled := .resolved Val.undefined } := by
  simp [chain, Promise.andThen, Promise.orCatch, hauth, hreg, Handoff.destructure,
    Promise.throw, Promise.logThen, Promise.return]

/-- The chain when the uploader hands on nothing. -/
theorem chain_of_absent_upload (w : World) (env : Env) (imagePath : String)
    (token t a : Val)
    (hauth : (authenticate w (Env.read env.USERNAME) (Env.read env.PASSWORD)).settled =
      .resolved token)
    (hreg : (createArtworkID w token imagePath).settled = .resolved (Handoff.pair t a))
    (hup : (upload w (Env.read env.USERNAME) t a imagePath).settled = .resolved Handoff.absent) :
    chain w env imagePath =
      { events := (authenticate w (Env.read env.USERNAME) (Env.read env.PASSWORD)).events ++
          (createArtworkID w token imagePath).events ++
          (upload w (Env.read env.USERNAME) t a imagePath).events ++
          [Event.log Line.unableToUpload],
        settled := .resolved Val.undefined } := by
  simp [chain, Promise.andThen, Promise.orCatch, hauth, hreg, hup, Handoff.destructure,
    Promise.throw, Promise.logThen, Promise.return]

/-- The chain when both hand-offs are present. -/
theorem chain_of_handoffs (w : World) (env : Env) (imagePath : String)
    (token t a t2 a2 : Val)
    (hauth : (authenticate w (Env.read env.USERNAME) (Env.read env.PASSWORD)).settled =
      .resolved token)
    (hreg : (createArtworkID w token imagePath).settled = .resolved (Handoff.pair t a))
    (hup : (upload w (Env.read env.USERNAME) t a imagePath).settled =
      .resolved (Handoff.pair t2 a2)) :
    (chain w env imagePath).events =
      (authenticate w (Env.read env.USERNAME) (Env.read env.PASSWORD)).events ++
        (createArtworkID w token imagePath).events ++
        (upload w (Env.read env.USERNAME) t a imagePath).events ++
        (addToPlaylist w (Env.read env.USERNAME) t2 a2 (Env.read env.PLAYLIST)).events := by
  have hp : (addToPlaylist w (Env.read env.USERNAME) t2 a2 (Env.read env.PLAYLIST)).fulfilled
      = true :=
    by
      rcases hq : w.post (addToPlaylistRequest (Env.read env.USERNAME) t2 a2
        (Env.read env.PLAYLIST)) with r | e
      · simp [addToPlaylist_of_success w _ _ _ _ r hq, Promise.fulfilled]
      · simp [addToPlaylist_of_failure w _ _ _ _ e hq, Promise.fulfilled]
  unfold Promise.fulfilled at hp
  split at hp
  · next v hv =>
    simp [chain, Promise.andThen, Promise.orCatch, hauth, hreg, hup, hv, Handoff.destructure,
      Promise.throw, Promise.logThen, Promise.return]
  · exact absurd hp (by simp)
  · exact absurd hp (by simp)

/-! ## Splitting the argument -/

theorem isSpace_comma : isSpace ',' = false := by decide

theorem matchSpaces_some (s : List Char) : matchSpaces some s = some (s.dropWhile isSpace) := by
  induction s with
  | nil => rfl
  | cons c cs ih =>
    by_cases hc : isSpace c = true
    · simp [matchSpaces, hc, ih, List.dropWhile]
    · simp [matchSpaces, hc, List.dropWhile]

/-- What the separator pattern matches at the start of an input: the spaces,
when a comma follows them, that comma and the spaces after it. -/
theorem matchSeparator_eq (s : List Char) :
    matchSeparator s =
      match s.dropWhile isSpace with
      | [] => none
      | c :: t => if c = ',' then some (t.dropWhile isSpace) else none := by
  unfold matchSeparator
  induction s with
  | nil => rfl
  | cons c cs ih =>
    by_cases hc : isSpace c = true
    · have hne : c ≠ ',' := by
        intro h
        rw [h, isSpace_comma] at hc
        exact absurd hc (by simp)
      rw [matchSpaces]
      simp only [hc, if_true, List.dropWhile]
      rw [ih]
      cases hd : cs.dropWhile isSpace with
      | nil => simp [matchComma, hne]
      | cons d t =>
        by_cases hdc : d = ','
        · simp [hdc]
        · simp [hdc, matchComma, hne]
    · rw [matchSpaces]
      simp only [hc, List.dropWhile]
      by_cases hcc : c = ','
      · simp [matchComma, hcc, matchSpaces_some]
      · simp [matchComma, hcc]

theorem dropWhile_blank_append (l t : List Char) (hl : ∀ c ∈ l, isSpace c = true) :
    (l ++ t).dropWhile isSpace = t.dropWhile isSpace := by
  induction l with
  | nil => rfl
  | cons c cs ih =>
    have hc : isSpace c = true := hl c (List.mem_cons_self _ _)
    simp [List.dropWhile, hc, ih (fun d hd => hl d (List.mem_cons_of_mem _ hd))]

theorem length_dropWhile_le (t : List Char) : (t.dropWhile isSpace).length ≤ t.length := by
  induction t with
  | nil => simp
  | cons c cs ih =>
    by_cases hc : isSpace c = true
    · simp [List.dropWhile, hc]; omega
    · simp [List.dropWhile, hc]

theorem matchSeparator_at_comma (l t : List Char) (hl : ∀ c ∈ l, isSpace c = true) :
    matchSeparator (l ++ ',' :: t) = some (t.dropWhile isSpace) := by
  rw [matchSeparator_eq, dropWhile_blank_append l _ hl]
  simp [List.dropWhile, isSpace_comma]

theorem splitLoop_cons (fuel : Nat) (pending : List Char) (c : Char) (cs : List Char) :
    splitLoop (fuel + 1) pending (c :: cs) =
      match matchSeparator (c :: cs) with
      | none => splitLoop fuel (c :: pending) cs
      | some r =>
        if r.length = (c :: cs).length ∧ pending = [] then splitLoop fuel (c :: pending) cs
        else pending.reverse :: splitLoop fuel [] r := rfl

theorem splitLoop_nil (fuel : Nat) (pending : List Char) :
    splitLoop (fuel + 1) pending [] = [pending.reverse] := rfl

theorem splitLoop_of_match (fuel : Nat) (pending s r : List Char)
    (h : matchSeparator s = some r) (hlen : r.length < s.length) :
    splitLoop (fuel + 1) pending s = pending.reverse :: splitLoop fuel [] r := by
  cases s with
  | nil => simp at hlen
  | cons c cs =>
    have hne : ¬ (r.length = (c :: cs).length ∧ pending = []) := by
      intro hh
      omega
    rw [splitLoop_cons, h]
    exact if_neg hne

theorem splitLoop_of_no_match (fuel : Nat) (pending : List Char) (c : Char) (cs : List Char)
    (h : matchSeparator (c :: cs) = none) :
    splitLoop (fuel + 1) pending (c :: cs) = splitLoop fuel (c :: pending) cs := by
  rw [splitLoop_cons, h]

theorem dropWhile_in_path (q t : List Char) (hq : q ≠ [])
    (hlast : ∀ c, q.getLast? = some c → isSpace c = false) :
    ∃ d u, d ∈ q ∧ (q ++ t).dropWhile isSpace = d :: u := by
  induction q with
  | nil => exact absurd rfl hq
  | cons a q ih =>
    by_cases ha : isSpace a = true
    · cases q with
      | nil =>
        have := hlast a (by simp)
        rw [ha] at this
        exact absurd this (by simp)
      | cons b q' =>
        obtain ⟨d, u, hd, hu⟩ := ih (by simp) (fun c hc => hlast c (by
          rw [List.getLast?_cons_cons]
          exact hc))
        exact ⟨d, u, List.mem_cons_of_mem _ hd, by simpa [List.dropWhile, ha] using hu⟩
    · exact ⟨a, q ++ t, List.mem_cons_self _ _, by simp [List.dropWhile, ha]⟩

theorem matchSeparator_in_path (x : Char) (rest t : List Char) (h : EndsPlain (x :: rest)) :
    matchSeparator (x :: (rest ++ t)) = none := by
  obtain ⟨d, u, hd, hu⟩ := dropWhile_in_path (x :: rest) t (by simp) h.2
  have hne : d ≠ ',' := by
    intro hdc
    exact h.1 (hdc ▸ hd)
  rw [matchSeparator_eq]
  rw [List.cons_append] at hu
  rw [hu]
  simp [hne]

theorem endsPlain_tail (x : Char) (rest : List Char) (h : EndsPlain (x :: rest)) :
    EndsPlain rest := by
  refine ⟨fun hc => h.1 (List.mem_cons_of_mem _ hc), ?_⟩
  intro c hc
  cases rest with
  | nil => simp at hc
  | cons b q =>
    apply h.2 c
    rw [List.getLast?_cons_cons]
    exact hc

/-- After a separator has been matched, the input left starts with the next
path, and what follows that path is again a list of plain segments with the
same paths. -/
theorem dropWhile_segments (r p : List Char) (gs : List Segment)
    (hr : ∀ c ∈ r, isSpace c = true) (hp : StartsPlain p) (hgs : ∀ g ∈ gs, g.Plain) :
    ∃ gs2 : List Segment, gs2.length = gs.length ∧ (∀ g ∈ gs2, g.Plain) ∧
      gs2.map Segment.path = gs.map Segment.path ∧
      (r ++ (p ++ joinSegments gs)).dropWhile isSpace = p ++ joinSegments gs2 := by
  rw [dropWhile_blank_append r _ hr]
  cases p with
  | cons a q =>
    have ha : isSpace a = false := hp a rfl
    exact ⟨gs, rfl, hgs, rfl, by simp [List.dropWhile, ha]⟩
  | nil =>
    cases gs with
    | nil => exact ⟨[], rfl, hgs, rfl, by simp [joinSegments]⟩
    | cons g rest =>
      have hg : g.Plain := hgs g (List.mem_cons_self _ _)
      refine ⟨{ left := [], right := g.right, path := g.path } :: rest, by simp, ?_, by simp, ?_⟩
      · intro g2 hg2
        rcases List.mem_cons.1 hg2 with h1 | h1
        · subst h1
          exact ⟨by simp, hg.2.1, hg.2.2.1, hg.2.2.2⟩
        · exact hgs g2 (List.mem_cons_of_mem _ h1)
      · simp only [joinSegments, List.nil_append]
        rw [dropWhile_blank_append g.left _ hg.1]
        simp [List.dropWhile, isSpace_comma]

theorem splitLoop_segments : ∀ (n : Nat) (segs : List Segment), segs.length = n →
    (∀ g ∈ segs, g.Plain) → ∀ (p0 pending : List Char) (fuel : Nat), EndsPlain p0 →
    (p0 ++ joinSegments segs).length < fuel →
    splitLoop fuel pending (p0 ++ joinSegments segs) =
      (pending.reverse ++ p0) :: segs.map Segment.path := by
  intro n
  induction n with
  | zero =>
    intro segs hlen _ p0
    have hs : segs = [] := List.length_eq_zero.1 hlen
    subst hs
    induction p0 with
    | nil =>
      intro pending fuel _ hfuel
      cases fuel with
      | zero => simp at hfuel
      | succ f => simp [joinSegments, splitLoop_nil]
    | cons x rest ih =>
      intro pending fuel hp hfuel
      cases fuel with
      | zero => simp at hfuel
      | succ f =>
        rw [List.cons_append, splitLoop_of_no_match f pending x _
          (matchSeparator_in_path x rest _ hp)]
        rw [ih (x :: pending) f (endsPlain_tail x rest hp) (by simpa using hfuel)]
        simp
  | succ m ihm =>
    intro segs hlen hsegs p0
    induction p0 with
    | nil =>
      intro pending fuel _ hfuel
      cases segs with
      | nil => simp at hlen
      | cons g gs =>
        have hg : g.Plain := hsegs g (List.mem_cons_self _ _)
        have hgs : ∀ g2 ∈ gs, g2.Plain := fun g2 h2 => hsegs g2 (List.mem_cons_of_mem _ h2)
        obtain ⟨gs2, hlen2, hplain2, hmap2, hdrop⟩ :=
          dropWhile_segments g.right g.path gs hg.2.1 hg.2.2.2 hgs
        cases fuel with
        | zero => simp at hfuel
        | succ f =>
          have hmatch := matchSeparator_at_comma g.left (g.right ++ (g.path ++ joinSegments gs))
            hg.1
          have hle := length_dropWhile_le (g.right ++ (g.path ++ joinSegments gs))
          simp only [List.nil_append, joinSegments, List.length_append, List.length_cons]
            at hfuel ⊢
          simp only [List.length_append] at hle
          rw [splitLoop_of_match f pending _ _ hmatch (by
            simp only [List.length_append, List.length_cons]
            omega)]
          rw [hdrop]
          rw [ihm gs2 (by simpa using hlen2.trans (by simpa using hlen)) hplain2 g.path [] f
            hg.2.2.1 (by
              rw [← hdrop]
              omega)]
          simp [hmap2]
    | cons x rest ih =>
      intro pending fuel hp hfuel
      cases fuel with
      | zero => simp at hfuel
      | succ f =>
        rw [List.cons_append, splitLoop_of_no_match f pending x _
          (matchSeparator_in_path x rest _ hp)]
        rw [ih (x :: pending) f (endsPlain_tail x rest hp) (by simpa using hfuel)]
        simp

theorem plainPath_ends (p : String) (h : isPlainPath p = true) : EndsPlain p.data := by
  simp only [isPlainPath, Bool.and_eq_true, Bool.not_eq_true'] at h
  refine ⟨?_, ?_⟩
  · intro hc
    have : p.data.contains ',' = true := by simpa using hc
    rw [this] at h
    exact absurd h.1.1 (by simp)
  · intro c hc
    have h3 := h.2
    rw [hc] at h3
    simpa using h3

theorem plainPath_starts (p : String) (h : isPlainPath p = true) : StartsPlain p.data := by
  simp only [isPlainPath, Bool.and_eq_true, Bool.not_eq_true'] at h
  intro c hc
  have h2 := h.1.2
  rw [hc] at h2
  simpa using h2

theorem blank_data (l : String) (h : isBlank l = true) : ∀ c ∈ l.data, isSpace c = true := by
  simpa [isBlank, List.all_eq_true] using h

/-- The characters of the joined argument: those of the first path, followed
by plain segments that carry the remaining paths. -/
theorem joinPadded_data (ps : List String) : ∀ (p : String) (pads : List (String × String)),
    (∀ q ∈ p :: ps, isPlainPath q = true) →
    (∀ lr ∈ pads, isBlank lr.1 = true ∧ isBlank lr.2 = true) →
    ∃ segs : List Segment, (∀ g ∈ segs, g.Plain) ∧
      segs.map Segment.path = ps.map String.data ∧
      (joinPadded (p :: ps) pads).data = p.data ++ joinSegments segs := by
  induction ps with
  | nil =>
    intro p pads _ _
    exact ⟨[], by simp, rfl, by simp [joinPadded, joinSegments]⟩
  | cons q qs ih =>
    intro p pads hplain hpads
    have hq : ∀ x ∈ q :: qs, isPlainPath x = true :=
      fun x hx => hplain x (List.mem_cons_of_mem _ hx)
    have hqp : isPlainPath q = true := hq q (List.mem_cons_self _ _)
    cases pads with
    | nil =>
      obtain ⟨segs, hs, hm, hd⟩ := ih q [] hq (by simp)
      refine ⟨{ left := [], right := [], path := q.data } :: segs, ?_, by simp [hm], ?_⟩
      · intro g hg
        rcases List.mem_cons.1 hg with h1 | h1
        · subst h1
          exact ⟨by simp, by simp, plainPath_ends q hqp, plainPath_starts q hqp⟩
        · exact hs g h1
      · simp [joinPadded, joinSegments, String.data_append, hd]
    | cons lr pads2 =>
      obtain ⟨l, r⟩ := lr
      have hlr := hpads (l, r) (List.mem_cons_self _ _)
      obtain ⟨segs, hs, hm, hd⟩ := ih q pads2 hq
        (fun x hx => hpads x (List.mem_cons_of_mem _ hx))
      refine ⟨{ left := l.data, right := r.data, path := q.data } :: segs, ?_, by simp [hm], ?_⟩
      · intro g hg
        rcases List.mem_cons.1 hg with h1 | h1
        · subst h1
          exact ⟨blank_data l hlr.1, blank_data r hlr.2, plainPath_ends q hqp,
            plainPath_starts q hqp⟩
        · exact hs g h1
      · simp [joinPadded, joinSegments, String.data_append, hd]

/-- Splitting the joined argument gives back the paths. -/
theorem split_of_joinPadded (paths : List String) (pads : List (String × String))
    (hne : paths ≠ []) (hplain : ∀ p ∈ paths, isPlainPath p = true)
    (hpads : ∀ lr ∈ pads, isBlank lr.1 = true ∧ isBlank lr.2 = true) :
    split (joinPadded paths pads) = paths := by
  cases paths with
  | nil => exact absurd rfl hne
  | cons p ps =>
    obtain ⟨segs, hs, hm, hd⟩ := joinPadded_data ps p pads hplain hpads
    unfold split
    by_cases hempty : (joinPadded (p :: ps) pads).data = []
    · rw [if_pos hempty]
      rw [hd] at hempty
      have hp : p.data = [] := (List.append_eq_nil.1 hempty).1
      have hj : joinSegments segs = [] := (List.append_eq_nil.1 hempty).2
      have hsegs : segs = [] := by
        cases segs with
        | nil => rfl
        | cons g gs => simp [joinSegments] at hj
      subst hsegs
      have hps : ps = [] := by
        cases ps with
        | nil => rfl
        | cons q qs => simp at hm
      subst hps
      have hpe : p = "" := by
        obtain ⟨d⟩ := p
        simp only at hp
        subst hp
        rfl
      subst hpe
      rfl
    · rw [if_neg hempty]
      have hlen : (joinPadded (p :: ps) pads).length = (p.data ++ joinSegments segs).length := by
        rw [← hd]
        rfl
      rw [hd, hlen, splitLoop_segments segs.length segs rfl hs p.data [] _
        (plainPath_ends p (hplain p (List.mem_cons_self _ _))) (Nat.lt_succ_self _)]
      have hid : (String.mk ∘ String.data) = id := funext (fun q => rfl)
      simp [hm, hid]

/-- C6: for a non-empty list of paths, none of which has a comma or starts or
ends with a `\s` character, joined by commas that are padded on either side
by any `\s` characters (or by none), splitting the argument on `/\s*,\s*/`
gives back exactly the list, and with a valid environment the script starts
one chain per path, on the unpadded path. -/
theorem split_joinPadded (paths : List String) (pads : List (String × String))
    (node script : String) (env : Env) (worlds : Nat → World)
    (hne : paths ≠ []) (hplain : ∀ p ∈ paths, isPlainPath p = true)
    (hpads : ∀ lr ∈ pads, isBlank lr.1 = true ∧ isBlank lr.2 = true)
    (henv : (Env.missing env.USERNAME || Env.missing env.PASSWORD ||
      Env.missing env.PLAYLIST) = false) :
    split (joinPadded paths pads) = paths ∧
    (main [node, script, joinPadded paths pads] env worlds).chains =
      paths.mapIdx (fun i imagePath => chain (worlds i) env imagePath) := by
  have hsplit := split_of_joinPadded paths pads hne hplain hpads
  refine ⟨hsplit, ?_⟩
  simp [main, henv, hsplit]

theorem split_joinPadded_witness :
    split "/tmp/a.jpg \t,  /tmp/b c.jpg,/tmp/d.png" =
      ["/tmp/a.jpg", "/tmp/b c.jpg", "/tmp/d.png"] :=
  (split_joinPadded ["/tmp/a.jpg", "/tmp/b c.jpg", "/tmp/d.png"] [(" \t", "  ")]
    "node" "index.js" sampleEnv (fun _ => acceptingWorld)
    (by decide) (by decide) (by decide) (by decide)).1

/-! ## Startup validation -/

/-- C7: with an argument vector whose length is not 3 the script prints the
usage message, exits with code 1 and issues no request; with three arguments
and one of `USERNAME`, `PASSWORD`, `PLAYLIST` unset or empty it prints the
setup message, exits with code 1 and issues no request; in either case the
exit code is 1 and there is no request; and with three arguments and all
three variables non-empty it prints nothing, does not exit and starts one
chain per element of the split argument. -/
theorem main_validates (argv : List String) (env : Env) (worlds : Nat → World) :
    (argv.length ≠ 3 →
      (main argv env worlds).stdout = [Line.usage] ∧
      (main argv env worlds).exitCode = some 1 ∧
      (main argv env worlds).requests = []) ∧
    (argv.length = 3 →
      (Env.missing env.USERNAME = true ∨ Env.missing env.PASSWORD = true ∨
        Env.missing env.PLAYLIST = true) →
      (main argv env worlds).stdout = [Line.setup] ∧
      (main argv env worlds).exitCode = some 1 ∧
      (main argv env worlds).requests = []) ∧
    ((argv.length ≠ 3 ∨ Env.missing env.USERNAME = true ∨ Env.missing env.PASSWORD = true ∨
        Env.missing env.PLAYLIST = true) →
      (main argv env worlds).exitCode = some 1 ∧ (main argv env worlds).requests = []) ∧
    (argv.length = 3 → Env.missing env.USERNAME = false → Env.missing env.PASSWORD = false →
      Env.missing env.PLAYLIST = false →
      (main argv env worlds).stdout = [] ∧
      (main argv env worlds).exitCode = none ∧
      (main argv env worlds).chains =
        (split (argv.getD 2 "")).mapIdx (fun i imagePath => chain (worlds i) env imagePath)) := by
  refine ⟨?_, ?_, ?_, ?_⟩
  · intro h
    simp [main, h, Run.requests]
  · intro h hm
    have hmiss : (Env.missing env.USERNAME || Env.missing env.PASSWORD ||
        Env.missing env.PLAYLIST) = true := by
      rcases hm with h1 | h1 | h1 <;> simp [h1]
    simp [main, h, hmiss, Run.requests]
  · intro hm
    by_cases h : argv.length = 3
    · have hmiss : (Env.missing env.USERNAME || Env.missing env.PASSWORD ||
          Env.missing env.PLAYLIST) = true := by
        rcases hm with h1 | h1 | h1 | h1
        · exact absurd h h1
        · simp [h1]
        · simp [h1]
        · simp [h1]
      simp [main, h, hmiss, Run.requests]
    · simp [main, h, Run.requests]
  · intro h h1 h2 h3
    simp [main, h, h1, h2, h3]

theorem main_validates_witness :
    (main ["node", "index.js", "/tmp/a.jpg"]
        { USERNAME := some "me@example.org", PASSWORD := some "secret", PLAYLIST := some "" }
        (fun _ => acceptingWorld)).stdout = [Line.setup] ∧
      (main ["node", "index.js", "/tmp/a.jpg"]
        { USERNAME := some "me@example.org", PASSWORD := some "secret", PLAYLIST := some "" }
        (fun _ => acceptingWorld)).exitCode = some 1 ∧
      (main ["node", "index.js", "/tmp/a.jpg"]
        { USERNAME := some "me@example.org", PASSWORD := some "secret", PLAYLIST := some "" }
        (fun _ => acceptingWorld)).requests = [] :=
  (main_validates ["node", "index.js", "/tmp/a.jpg"]
    { USERNAME := some "me@example.org", PASSWORD := some "secret", PLAYLIST := some "" }
    (fun _ => acceptingWorld)).2.1 rfl (Or.inr (Or.inr rfl))

/-! ## Abort of the chain by an absent hand-off -/

theorem authenticateRequest_kind (username password : Val) :
    (authenticateRequest username password).isUpload = false ∧
    (authenticateRequest username password).isPlaylist = false := by
  simp only [Request.isUpload, Request.isPlaylist, authenticateRequest]
  decide

theorem createArtworkRequest_kind (w : World) (token : Val) (imagePath : String) :
    (createArtworkRequest w token imagePath).isUpload = false ∧
    (createArtworkRequest w token imagePath).isPlaylist = false := by
  simp only [Request.isUpload, Request.isPlaylist, createArtworkRequest]
  decide

theorem uploadRequest_kind (w : World) (username token artworkID : Val) (imagePath : String) :
    (uploadRequest w username token artworkID imagePath).isPlaylist = false := by
  simp only [Request.isPlaylist, uploadRequest]
  decide

/-- C2: let `token` be what `authenticate` resolved to.  If `createArtworkID`
resolves to the absent value, the chain issues no upload request and no
playlist request, its outer handler logs the line "Unable to upload image"
exactly once, and when the cause is a 409 the duplicate-title diagnostic is
logged exactly once.  If `createArtworkID` hands on a pair and `upload`
resolves to the absent value, the chain issues no playlist request and the
outer handler logs its line exactly once. -/
theorem chain_aborts_on_absent_handoff (w : World) (env : Env) (imagePath : String)
    (token : Val)
    (hauth : (authenticate w (Env.read env.USERNAME) (Env.read env.PASSWORD)).settled =
      .resolved token) :
    ((createArtworkID w token imagePath).settled = .resolved Handoff.absent →
      (∀ r ∈ requestsOf (chain w env imagePath).events,
        r.isUpload = false ∧ r.isPlaylist = false) ∧
      (linesOf (chain w env imagePath).events).count Line.unableToUpload = 1 ∧
      (∀ e, w.post (createArtworkRequest w token imagePath) = .failure e →
        e.status = some 409 →
        (linesOf (chain w env imagePath).events).count Line.duplicateTitle = 1)) ∧
    (∀ t a, (createArtworkID w token imagePath).settled = .resolved (Handoff.pair t a) →
      (upload w (Env.read env.USERNAME) t a imagePath).settled = .resolved Handoff.absent →
      (∀ r ∈ requestsOf (chain w env imagePath).events, r.isPlaylist = false) ∧
      (linesOf (chain w env imagePath).events).count Line.unableToUpload = 1) := by
  constructor
  · intro hreg
    rw [chain_of_absent_registration w env imagePath token hauth hreg]
    refine ⟨?_, ?_, ?_⟩
    · intro r hr
      simp only [requestsOf_append, authenticate_requests, createArtworkID_requests,
        requestsOf, List.append_nil, List.cons_append, List.nil_append, List.mem_cons,
        List.mem_singleton, List.not_mem_nil, or_false] at hr
      rcases hr with h | h
      · subst h
        exact authenticateRequest_kind _ _
      · subst h
        exact createArtworkRequest_kind _ _ _
    · simp only [linesOf_append, List.count_append, (authenticate_lines w _ _).1,
        createArtworkID_lines]
      simp [linesOf]
    · intro e he hs
      simp only [linesOf_append, List.count_append, (authenticate_lines w _ _).2]
      rw [createArtworkID_of_failure w token imagePath e he]
      simp [linesOf, hs]
  · intro t a hreg hup
    rw [chain_of_absent_upload w env imagePath token t a hauth hreg hup]
    refine ⟨?_, ?_⟩
    · intro r hr
      simp only [requestsOf_append, authenticate_requests, createArtworkID_requests,
        requestsOf, List.append_nil, List.cons_append, List.nil_append,
        List.mem_cons, List.mem_append] at hr
      rcases hr with h | h | h
      · subst h
        exact (authenticateRequest_kind _ _).2
      · subst h
        exact (createArtworkRequest_kind _ _ _).2
      · rw [upload_requests w _ _ _ _ r h]
        exact uploadRequest_kind _ _ _ _ _
    · simp only [linesOf_append, List.count_append, (authenticate_lines w _ _).1,
        createArtworkID_lines, upload_lines]
      simp [linesOf]

theorem chain_aborts_on_absent_handoff_witness :
    (∀ r ∈ requestsOf (chain conflictWorld sampleEnv "/tmp/a.jpg").events,
        r.isUpload = false ∧ r.isPlaylist = false) ∧
      (linesOf (chain conflictWorld sampleEnv "/tmp/a.jpg").events).count
        Line.unableToUpload = 1 ∧
      (linesOf (chain conflictWorld sampleEnv "/tmp/a.jpg").events).count
        Line.duplicateTitle = 1 :=
  have h := (chain_aborts_on_absent_handoff conflictWorld sampleEnv "/tmp/a.jpg"
    (Val.str "tok-1") (by decide)).1 (by decide)
  ⟨h.1, h.2.1, h.2.2 _ rfl rfl⟩

/-! ## The title sent to the registrar -/

/-- C8: the one request `createArtworkID` issues has as its body the image id
drawn from `uuid()`, the title `path.parse(imagePath).name`, the empty string
as details and empty lists of mediums and subjects; and for a path
`dir/name.ext`, where `name` is not empty and neither `name` nor `ext`
contains a slash and `ext` contains no dot, that title is `name`. -/
theorem createArtworkID_sends_derived_title (w : World) (token : Val) (imagePath : String)
    (dir name ext : String) (hname : name ≠ "") (hn : '/' ∉ name.data)
    (he : '/' ∉ ext.data) (hd : '.' ∉ ext.data) :
    requestsOf (createArtworkID w token imagePath).events =
      [createArtworkRequest w token imagePath] ∧
    (createArtworkRequest w token imagePath).body =
      Body.artwork w.uuid (pathParseName imagePath) "" [] [] ∧
    (createArtworkRequest w token (dir ++ "/" ++ name ++ "." ++ ext)).body =
      Body.artwork w.uuid name "" [] [] := by
  refine ⟨createArtworkID_requests w token imagePath, rfl, ?_⟩
  simp only [createArtworkRequest, pathParseName_of_parts dir name ext hname hn he hd]

theorem createArtworkID_sends_derived_title_witness :
    (createArtworkRequest acceptingWorld (Val.str "tok-1") "/tmp/a.jpg").body =
      Body.artwork "6f1c" "a" "" [] [] :=
  (createArtworkID_sends_derived_title acceptingWorld (Val.str "tok-1") "/tmp/a.jpg"
    "/tmp" "a" "jpg" (by decide) (by decide) (by decide) (by decide)).2.2

/-! ## The size ceiling of the upload -/

/-- C9, counterexample: a file of 99,999,999 bytes, just below the ceiling,
in a request body of 300 bytes more, with a form that is ready and a server
that accepts the request.  The body is longer than the maximum body length the
request carries, so the upload fails: it resolves to the absent value after
the unknown-upload-error line. -/
theorem upload_just_below_ceiling_fails :
    (99999999 < 100000000 ∧
      (sizedWorld 99999999 300).form "/tmp/a.jpg" (Val.str "art-9") = FormStep.ready ∧
      acceptingWorld.post (uploadRequest (sizedWorld 99999999 300) (Val.str "me@example.org")
          (Val.str "tok-1") (Val.str "art-9") "/tmp/a.jpg") =
        .success ⟨200, Payload.object
          [("token", Val.str "tok-1"), ("id", Val.str "art-9"), ("artwork", Val.str "art-9")]⟩) ∧
    (upload (sizedWorld 99999999 300) (Val.str "me@example.org") (Val.str "tok-1")
        (Val.str "art-9") "/tmp/a.jpg").settled = .resolved Handoff.absent ∧
    linesOf (upload (sizedWorld 99999999 300) (Val.str "me@example.org") (Val.str "tok-1")
        (Val.str "art-9") "/tmp/a.jpg").events =
      [Line.uploadError "Error: Request body larger than maxBodyLength limit"] := by
  decide

/-- C9, amended: every request `upload` issues carries 100,000,000 both as
maximum content length and as maximum body length.  With a transport that
enforces the ceiling on the request body, which holds the file and more, and
a form that is ready: an upload whose body has at most 100,000,000 bytes and
which the server accepts resolves to the pair of token and artwork id, and an
upload of a file of more than 100,000,000 bytes resolves to the absent value,
whatever the server would answer, after logging the unknown-upload-error
line. -/
theorem upload_size_ceiling (w : World) (username token artworkID : Val) (imagePath : String)
    (fileSize : Nat) (bodyLength : Request → Nat) (server : Request → Outcome)
    (hpost : w.post = enforceCeiling bodyLength server)
    (hbody : fileSize ≤ bodyLength (uploadRequest w username token artworkID imagePath)) :
    (∀ r ∈ requestsOf (upload w username token artworkID imagePath).events,
      r.maxBodyLength = some 100000000 ∧ r.maxContentLength = some 100000000) ∧
    (w.form imagePath artworkID = FormStep.ready →
      bodyLength (uploadRequest w username token artworkID imagePath) ≤ 100000000 →
      ∀ st fields, server (uploadRequest w username token artworkID imagePath) =
          .success ⟨st, .object fields⟩ →
        (upload w username token artworkID imagePath).settled =
          .resolved (Handoff.pair token artworkID)) ∧
    (w.form imagePath artworkID = FormStep.ready → 100000000 < fileSize →
      (upload w username token artworkID imagePath).settled = .resolved Handoff.absent ∧
      ∃ shown, linesOf (upload w username token artworkID imagePath).events =
        [Line.uploadError shown]) := by
  refine ⟨?_, ?_, ?_⟩
  · intro r hr
    rw [upload_requests w username token artworkID imagePath r hr]
    exact ⟨rfl, rfl⟩
  · intro hform hsize st fields hserver
    have h : w.post (uploadRequest w username token artworkID imagePath) =
        .success ⟨st, .object fields⟩ := by
      rw [hpost, ← hserver]
      have hlim : ¬ (bodyLength (uploadRequest w username token artworkID imagePath) >
          ONE_HUNDRED_MEGABYTES) := by
        simp only [ONE_HUNDRED_MEGABYTES]
        omega
      have hmax : (uploadRequest w username token artworkID imagePath).maxBodyLength =
          some ONE_HUNDRED_MEGABYTES := rfl
      simp only [enforceCeiling, hmax, if_neg hlim]
    rw [upload_of_object w _ _ _ _ st fields hform h]
  · intro hform hsize
    have hlim : bodyLength (uploadRequest w username token artworkID imagePath) >
        ONE_HUNDRED_MEGABYTES := by
      simp only [ONE_HUNDRED_MEGABYTES]
      omega
    have hmax : (uploadRequest w username token artworkID imagePath).maxBodyLength =
        some ONE_HUNDRED_MEGABYTES := rfl
    have h : w.post (uploadRequest w username token artworkID imagePath) =
        .failure ⟨"Error: Request body larger than maxBodyLength limit", none⟩ := by
      rw [hpost]
      simp only [enforceCeiling, hmax, if_pos hlim]
    rw [upload_of_failure w _ _ _ _ _ hform h]
    exact ⟨rfl, _, rfl⟩

theorem upload_size_ceiling_witness :
    (upload (sizedWorld 250000000 300) (Val.str "me@example.org") (Val.str "tok-1")
        (Val.str "art-9") "/tmp/a.jpg").settled = .resolved Handoff.absent ∧
      ∃ shown, linesOf (upload (sizedWorld 250000000 300) (Val.str "me@example.org")
        (Val.str "tok-1") (Val.str "art-9") "/tmp/a.jpg").events = [Line.uploadError shown] :=
  (upload_size_ceiling (sizedWorld 250000000 300) (Val.str "me@example.org") (Val.str "tok-1")
    (Val.str "art-9") "/tmp/a.jpg" 250000000 (fun _ => 250000000 + 300) acceptingWorld.post
    rfl (by decide)).2.2 rfl (by decide)

/-! ## A batch in which every call succeeds -/

theorem createArtworkRequest_isRegister (w : World) (token : Val) (imagePath : String) :
    (createArtworkRequest w token imagePath).isRegister = true := by
  simp only [Request.isRegister, createArtworkRequest]
  decide

/-- C4: the argument is a non-empty list of plain paths joined by padded
commas, the three variables are set and not empty, and every HTTP call
succeeds: every request is answered with a success whose payload can be read,
and the form of the upload call, which holds the id that the register call was
answered with, can be built and written.  Then the script does not
exit, it starts exactly one chain per path, and the chain of each path issues
the four requests and logs the four success lines in the order authenticate,
register, upload, add to playlist; the token in the `x-access-token` header of
the last three requests is what that chain's `authenticate` resolved to, the
artwork id in the upload form and in the playlist request is the one that
chain's `createArtworkID` resolved to, and the playlist request body holds the
one-element list of that artwork id and the configured playlist. -/
theorem successful_batch (node script : String) (paths : List String)
    (pads : List (String × String)) (username password playlist : String)
    (worlds : Nat → World)
    (hne : paths ≠ []) (hplain : ∀ p ∈ paths, isPlainPath p = true)
    (hpads : ∀ lr ∈ pads, isBlank lr.1 = true ∧ isBlank lr.2 = true)
    (hu : username ≠ "") (hp : password ≠ "") (hl : playlist ≠ "")
    (hok : ∀ i r, ∃ st fields, (worlds i).post r = .success ⟨st, .object fields⟩)
    (hform : ∀ i r st fields imagePath,
      (worlds i).post r = .success ⟨st, .object fields⟩ → r.isRegister = true →
      (worlds i).form imagePath ((fields.lookup "id").getD Val.undefined) = FormStep.ready) :
    (main [node, script, joinPadded paths pads]
      (Env.mk (some username) (some password) (some playlist)) worlds).exitCode = none ∧
    (main [node, script, joinPadded paths pads]
      (Env.mk (some username) (some password) (some playlist)) worlds).chains.length =
        paths.length ∧
    ∀ i imagePath, paths[i]? = some imagePath →
      ∃ token artworkID artworkShown,
        (main [node, script, joinPadded paths pads]
          (Env.mk (some username) (some password) (some playlist)) worlds).chains[i]? =
          some (chain (worlds i) (Env.mk (some username) (some password) (some playlist))
            imagePath) ∧
        (authenticate (worlds i) (Val.str username) (Val.str password)).settled =
          .resolved token ∧
        (createArtworkID (worlds i) token imagePath).settled =
          .resolved (Handoff.pair token artworkID) ∧
        (chain (worlds i) (Env.mk (some username) (some password) (some playlist))
            imagePath).events =
          [Event.request (authenticateRequest (Val.str username) (Val.str password)),
            Event.log Line.authenticated,
            Event.request (createArtworkRequest (worlds i) token imagePath),
            Event.log (Line.createdArtwork artworkID.toStr),
            Event.request (uploadRequest (worlds i) (Val.str username) token artworkID imagePath),
            Event.log (Line.uploaded artworkShown imagePath),
            Event.request (addToPlaylistRequest (Val.str username) token artworkID
              (Val.str playlist)),
            Event.log Line.addedToPlaylist] ∧
        linesOf (chain (worlds i) (Env.mk (some username) (some password) (some playlist))
            imagePath).events =
          [Line.authenticated, Line.createdArtwork artworkID.toStr,
            Line.uploaded artworkShown imagePath, Line.addedToPlaylist] ∧
        (linesOf (chain (worlds i) (Env.mk (some username) (some password) (some playlist))
            imagePath).events).all Line.isSuccess = true ∧
        (createArtworkRequest (worlds i) token imagePath).headers.lookup "x-access-token" =
          some token ∧
        (uploadRequest (worlds i) (Val.str username) token artworkID
          imagePath).headers.lookup "x-access-token" = some token ∧
        (addToPlaylistRequest (Val.str username) token artworkID
          (Val.str playlist)).headers.lookup "x-access-token" = some token ∧
        (uploadRequest (worlds i) (Val.str username) token artworkID imagePath).body =
          Body.form imagePath artworkID ∧
        (addToPlaylistRequest (Val.str username) token artworkID (Val.str playlist)).body =
          Body.playlistAdd [artworkID] (Val.str playlist) := by
  have hsplit := split_of_joinPadded paths pads hne hplain hpads
  have hmu : Env.missing (some username) = false := by simp [Env.missing, hu]
  have hmp : Env.missing (some password) = false := by simp [Env.missing, hp]
  have hml : Env.missing (some playlist) = false := by simp [Env.missing, hl]
  refine ⟨by simp [main, hmu, hmp, hml], by simp [main, hmu, hmp, hml, hsplit], ?_⟩
  intro i imagePath hpath
  obtain ⟨st1, f1, h1⟩ := hok i (authenticateRequest (Val.str username) (Val.str password))
  obtain ⟨st2, f2, h2⟩ := hok i (createArtworkRequest (worlds i)
    ((f1.lookup "token").getD Val.undefined) imagePath)
  obtain ⟨st3, f3, h3⟩ := hok i (uploadRequest (worlds i) (Val.str username)
    ((f1.lookup "token").getD Val.undefined) ((f2.lookup "id").getD Val.undefined) imagePath)
  obtain ⟨st4, f4, h4⟩ := hok i (addToPlaylistRequest (Val.str username)
    ((f1.lookup "token").getD Val.undefined) ((f2.lookup "id").getD Val.undefined)
    (Val.str playlist))
  have hA := authenticate_of_object (worlds i) _ _ st1 f1 h1
  have hB := createArtworkID_of_object (worlds i) _ _ st2 f2 h2
  have hU := upload_of_object (worlds i) _ _ _ _ st3 f3
    (hform i _ st2 f2 imagePath h2 (createArtworkRequest_isRegister _ _ _)) h3
  have hP := addToPlaylist_of_success (worlds i) _ _ _ _ _ h4
  have hchain := chain_of_handoffs (worlds i)
    (Env.mk (some username) (some password) (some playlist)) imagePath
    ((f1.lookup "token").getD Val.undefined) ((f1.lookup "token").getD Val.undefined)
    ((f2.lookup "id").getD Val.undefined) ((f1.lookup "token").getD Val.undefined)
    ((f2.lookup "id").getD Val.undefined)
    (by rw [show Env.read (some username) = Val.str username from rfl,
      show Env.read (some password) = Val.str password from rfl, hA])
    (by rw [hB])
    (by rw [show Env.read (some username) = Val.str username from rfl, hU])
  have hevents : (chain (worlds i) (Env.mk (some username) (some password) (some playlist))
      imagePath).events =
      [Event.request (authenticateRequest (Val.str username) (Val.str password)),
        Event.log Line.authenticated,
        Event.request (createArtworkRequest (worlds i)
          ((f1.lookup "token").getD Val.undefined) imagePath),
        Event.log (Line.createdArtwork ((f2.lookup "id").getD Val.undefined).toStr),
        Event.request (uploadRequest (worlds i) (Val.str username)
          ((f1.lookup "token").getD Val.undefined) ((f2.lookup "id").getD Val.undefined)
          imagePath),
        Event.log (Line.uploaded ((f3.lookup "artwork").getD Val.undefined).toStr imagePath),
        Event.request (addToPlaylistRequest (Val.str username)
          ((f1.lookup "token").getD Val.undefined) ((f2.lookup "id").getD Val.undefined)
          (Val.str playlist)),
        Event.log Line.addedToPlaylist] := by
    rw [hchain]
    rw [show Env.read (some username) = Val.str username from rfl,
      show Env.read (some password) = Val.str password from rfl,
      show Env.read (some playlist) = Val.str playlist from rfl, hA, hB, hU, hP]
    rfl
  refine ⟨(f1.lookup "token").getD Val.undefined, (f2.lookup "id").getD Val.undefined,
    ((f3.lookup "artwork").getD Val.undefined).toStr, ?_, by rw [hA], by rw [hB], hevents,
    by rw [hevents]; rfl, by rw [hevents]; rfl,
    by simp [createArtworkRequest], by simp [uploadRequest], by simp [addToPlaylistRequest],
    rfl, rfl⟩
  simp [main, hmu, hmp, hml, hsplit, hpath]

theorem successful_batch_witness :
    (main ["node", "index.js", "/tmp/a.jpg,/tmp/b.jpg"]
        (Env.mk (some "me@example.org") (some "secret") (some "playlist-7"))
        (fun _ => acceptingWorld)).exitCode = none ∧
      (main ["node", "index.js", "/tmp/a.jpg,/tmp/b.jpg"]
        (Env.mk (some "me@example.org") (some "secret") (some "playlist-7"))
        (fun _ => acceptingWorld)).chains.length = 2 :=
  have h := successful_batch "node" "index.js" ["/tmp/a.jpg", "/tmp/b.jpg"] []
    "me@example.org" "secret" "playlist-7" (fun _ => acceptingWorld) (by decide) (by decide)
    (by decide) (by decide) (by decide) (by decide) (fun _ _ => ⟨_, _, rfl⟩)
    (fun _ _ _ _ _ hpost _ => by cases hpost; rfl)
  ⟨h.1, h.2.1⟩

end Canvia
